import Mathlib

/-!
Verification of the Echo study-execution pipeline.

The definitions below are a shallow embedding of the business-logic layer of
the Echo consumer-research platform: the task sequencer
(`api/src/components/tasks.py`), the participant lifecycle
(`api/src/components/participants.py`), the response store
(`api/src/components/responses.py`) and the AI analysis service
(`api/src/services/ai_service.py`).  The database collaborator
(`db.create` / `db.read` / `db.update`) is modelled as a list of records with
exact-match filters, matching the Repository contract.  Wall-clock time
(`datetime.now()`) and freshly generated row ids are passed in as explicit
parameters.  The external inference collaborator is passed in as an oracle
function indexed by the number of calls made so far, so that call counts and
per-call outcomes are observable.
-/

namespace Echo

/-! ## Task sequencer data model -/

/-- A row of the `tasks` table.  `order_index` is an SQL INTEGER, hence `Int`. -/
structure Task where
  id : String
  study_id : String
  type : String
  title : String
  instructions : Option String
  order_index : Int
  created_at : Nat
  updated_at : Nat
deriving Repr, DecidableEq

/-- The `task` dict accepted by `create_task`; absent dict keys are `none`. -/
structure TaskInput where
  study_id : Option String := none
  type : Option String := none
  title : Option String := none
  instructions : Option String := none
  order_index : Option Int := none
deriving Repr, DecidableEq

/-- The closed set of task types accepted by `create_task`. -/
def valid_types : List String :=
  ["camera", "discussion", "gallery", "collage", "classification", "fill_blanks"]

/-- `db.read(table='tasks', query=\x7b'study_id': sid\x7d)`: exact-match filter. -/
def tasksOfStudy (db : List Task) (sid : String) : List Task :=
  db.filter (fun t => t.study_id == sid)

/-- `max([t.get('order_index', 0) for t in existing_tasks] + [0])` from
`create_task`: the maximum of the existing order indices of the study and 0. -/
def maxOrderIndex (db : List Task) (sid : String) : Int :=
  ((tasksOfStudy db sid).map (fun t => t.order_index)).foldl max 0

/-- `create_task` from `api/src/components/tasks.py`: validates presence of
`study_id`, `type` and `title`, validates the type against `valid_types`,
defaults a missing `order_index` to `maxOrderIndex + 1`, and inserts the row. -/
def create_task (db : List Task) (input : TaskInput) (now : Nat) (newId : String) :
    Except String (List Task × String) :=
  if input.study_id.getD "" = "" then .error "study_id is required"
  else if input.type.getD "" = "" then .error "type is required"
  else if input.title.getD "" = "" then .error "title is required"
  else if !(valid_types.contains (input.type.getD "")) then
    .error "Invalid task type"
  else
    let sid := input.study_id.getD ""
    let oi : Int :=
      match input.order_index with
      | some i => i
      | none => maxOrderIndex db sid + 1
    let t : Task :=
      { id := newId, study_id := sid, type := input.type.getD "",
        title := input.title.getD "", instructions := input.instructions,
        order_index := oi, created_at := now, updated_at := now }
    .ok (db ++ [t], newId)

/-- The optional filters accepted by `read_tasks`. -/
structure TaskQuery where
  id : Option String := none
  study_id : Option String := none
  type : Option String := none
deriving Repr, DecidableEq

/-- Exact-match conjunction semantics of the repository filter for tasks. -/
def taskMatches (q : TaskQuery) (t : Task) : Bool :=
  (match q.id with | none => true | some v => t.id == v) &&
  (match q.study_id with | none => true | some v => t.study_id == v) &&
  (match q.type with | none => true | some v => t.type == v)

/-- The comparison used by `tasks.sort(key=lambda x: x.get('order_index', 0))`. -/
def task_le (a b : Task) : Bool := a.order_index ≤ b.order_index

/-- `read_tasks`: filter by the query, then sort ascending by `order_index`
(Python `list.sort` is a stable merge sort). -/
def read_tasks (db : List Task) (q : TaskQuery) : List Task :=
  (db.filter (taskMatches q)).mergeSort task_le

/-- One `db.update(table='tasks', query=\x7b'id': tid, 'study_id': sid\x7d, data=...)`
step from the loop of `reorder_tasks`: every row matching both `id` and
`study_id` gets the new `order_index` and `updated_at`. -/
def reorderStep (sid : String) (now : Nat) (idx : Nat) (tid : String)
    (db : List Task) : List Task :=
  db.map (fun t =>
    if t.id == tid && t.study_id == sid then
      { t with order_index := (idx : Int), updated_at := now }
    else t)

/-- `enumerate(task_ids, start=n)`. -/
def enumFrom {α : Type} (n : Nat) : List α → List (Nat × α)
  | [] => []
  | a :: as => (n, a) :: enumFrom (n + 1) as

/-- The `for index, task_id in enumerate(task_ids, start=1)` loop body of
`reorder_tasks`, applied sequentially. -/
def applyReorder (sid : String) (now : Nat) : List (Nat × String) → List Task → List Task
  | [], db => db
  | (idx, tid) :: rest, db => applyReorder sid now rest (reorderStep sid now idx tid db)

/-- `reorder_tasks` from `api/src/components/tasks.py`: requires a non-empty
`study_id` and a non-empty id list, then renumbers each listed task of the
study to its 1-based position in the list.  No check that the listed ids match
the current task set of the study is performed. -/
def reorder_tasks (db : List Task) (study_id : String) (task_ids : List String)
    (now : Nat) : Except String (List Task × String) :=
  if study_id = "" then .error "Study ID is required"
  else if task_ids = [] then .error "Task IDs list is required"
  else .ok (applyReorder study_id now (enumFrom 1 task_ids) db,
            "Tasks reordered successfully")

/-! ## Sequences of task-sequencer operations

Used to state the ordering invariant over arbitrary interleavings of
`create_task` (without an explicit `order_index`) and `reorder_tasks`. -/

/-- One call into the task sequencer: `addTask` (a `create_task` call that
omits `order_index`) or `reorder` (a `reorder_tasks` call). -/
inductive TaskOp where
  | addTask (study_id ttype title : String) (newId : String) (now : Nat)
  | reorder (study_id : String) (task_ids : List String) (now : Nat)
deriving Repr, DecidableEq

/-- Run one operation against the table; a raised exception leaves the table
unchanged (all validation happens before any write). -/
def applyOp (db : List Task) : TaskOp → List Task
  | .addTask s ty ti nid now =>
    match create_task db { study_id := some s, type := some ty, title := some ti } now nid with
    | .ok (db2, _) => db2
    | .error _ => db
  | .reorder s ids now =>
    match reorder_tasks db s ids now with
    | .ok (db2, _) => db2
    | .error _ => db

/-- Run a sequence of operations left to right. -/
def applyOps (db : List Task) : List TaskOp → List Task
  | [] => db
  | op :: rest => applyOps (applyOp db op) rest

/-- Well-formed use of one operation: a create supplies a fresh row id (the
database generates UUID primary keys), and a reorder supplies exactly a
permutation of the current task ids of its study (the contract of `reorder`). -/
def legalOp (db : List Task) : TaskOp → Prop
  | .addTask _ _ _ nid _ => nid ∉ db.map Task.id
  | .reorder s ids _ => ids.Perm ((tasksOfStudy db s).map Task.id)

instance instDecidableLegalOp (db : List Task) (op : TaskOp) : Decidable (legalOp db op) := by
  cases op <;> simp only [legalOp] <;> infer_instance

/-- Every operation of the sequence is well formed in the state it runs in. -/
def legalSeq : List Task → List TaskOp → Prop
  | _, [] => True
  | db, op :: rest => legalOp db op ∧ legalSeq (applyOp db op) rest

instance instDecidableLegalSeq : (db : List Task) → (ops : List TaskOp) → Decidable (legalSeq db ops)
  | _, [] => .isTrue trivial
  | db, op :: rest =>
    have : Decidable (legalSeq (applyOp db op) rest) := instDecidableLegalSeq (applyOp db op) rest
    instDecidableAnd

/-- The ordering invariant of the task table: row ids are unique, and within
every study no two tasks share an `order_index`. -/
def TaskInv (db : List Task) : Prop :=
  (db.map Task.id).Nodup ∧
  ∀ s : String, ((tasksOfStudy db s).map Task.order_index).Nodup

/-! ## Participant lifecycle data model -/

/-- A row of the `participants` table. -/
structure Participant where
  id : String
  study_id : String
  contact : String
  demographics : Option String
  status : String
  invited_at : Option Nat
  started_at : Option Nat
  completed_at : Option Nat
  created_at : Nat
  updated_at : Nat
deriving Repr, DecidableEq

/-- The `participant` dict accepted by `create_participant`. -/
structure ParticipantInput where
  study_id : Option String := none
  contact : Option String := none
  demographics : Option String := none
  status : Option String := none
  invited_at : Option Nat := none
deriving Repr, DecidableEq

/-- `create_participant` from `api/src/components/participants.py`: requires
`study_id` and `contact`, defaults `status` to `invited` and `invited_at` to
the current time when absent, and inserts the row. -/
def create_participant (db : List Participant) (input : ParticipantInput)
    (now : Nat) (newId : String) : Except String (List Participant × String) :=
  if input.study_id.getD "" = "" then .error "study_id is required"
  else if input.contact.getD "" = "" then .error "contact is required"
  else
    let status := match input.status with | none => "invited" | some s => s
    let invited_at := match input.invited_at with | none => some now | some v => some v
    let p : Participant :=
      { id := newId, study_id := input.study_id.getD "",
        contact := input.contact.getD "", demographics := input.demographics,
        status := status, invited_at := invited_at, started_at := none,
        completed_at := none, created_at := now, updated_at := now }
    .ok (db ++ [p], newId)

/-- The `data` dict accepted by `update_participant`; absent keys are `none`. -/
structure ParticipantPatch where
  contact : Option String := none
  demographics : Option String := none
  status : Option String := none
  invited_at : Option Nat := none
  started_at : Option Nat := none
  completed_at : Option Nat := none
deriving Repr, DecidableEq

/-- `if not data: raise Exception("Update data is required")`: the dict is
empty when it carries no key at all. -/
def ParticipantPatch.isEmpty (d : ParticipantPatch) : Bool :=
  d.contact.isNone && d.demographics.isNone && d.status.isNone &&
  d.invited_at.isNone && d.started_at.isNone && d.completed_at.isNone

/-- Apply an update dict to a row: every key present in the dict overwrites the
stored field; `updated_at` is always rewritten to the current time. -/
def applyPatch (d : ParticipantPatch) (now : Nat) (p : Participant) : Participant :=
  { p with
    contact := d.contact.getD p.contact,
    demographics := match d.demographics with | none => p.demographics | some v => some v,
    status := d.status.getD p.status,
    invited_at := match d.invited_at with | none => p.invited_at | some v => some v,
    started_at := match d.started_at with | none => p.started_at | some v => some v,
    completed_at := match d.completed_at with | none => p.completed_at | some v => some v,
    updated_at := now }

/-- `update_participant` from `api/src/components/participants.py`: requires a
non-empty id and a non-empty update dict; when the dict sets `status` to
`started` (resp. `completed`) and carries no `started_at` (resp.
`completed_at`) key, the current time is written into that key; then every row
matching the id receives the patch.  No check of the current status against a
transition table is performed. -/
def update_participant (db : List Participant) (pid : String)
    (data : ParticipantPatch) (now : Nat) : Except String (List Participant × String) :=
  if pid = "" then .error "Participant ID is required"
  else if data.isEmpty then .error "Update data is required"
  else
    let data2 :=
      match data.status with
      | some st =>
        if st == "started" && data.started_at.isNone then
          { data with started_at := some now }
        else if st == "completed" && data.completed_at.isNone then
          { data with completed_at := some now }
        else data
      | none => data
    .ok (db.map (fun p => if p.id == pid then applyPatch data2 now p else p), pid)

/-! ## Response store data model -/

/-- A row of the `responses` table. -/
structure ResponseRec where
  id : String
  participant_id : String
  task_id : String
  response_data : String
  submitted_at : Nat
  created_at : Nat
deriving Repr, DecidableEq

/-- The exact-match repository filter for one (participant, task) pair. -/
def pairMatches (pid tid : String) (r : ResponseRec) : Bool :=
  r.participant_id == pid && r.task_id == tid

/-- Number of stored responses for one (participant, task) pair. -/
def pairCount (db : List ResponseRec) (pid tid : String) : Nat :=
  (db.filter (pairMatches pid tid)).length

/-- Modelled from the spec: `create_response` (the `submit` operation of the
ResponseIngestor, `api/src/components/responses.py`) is left as an exercise in
the source (LEARNING_GUIDE_PHASE2.md, Step 2.3.2) and its code is not in the
repository.  Modelled from spec section 4.3: "If a Response already exists for
this (participant, task) pair, the submission replaces it (upsert) rather than
creating a duplicate"; otherwise a new row is inserted. -/
def create_response (db : List ResponseRec) (pid tid : String) (payload : String)
    (now : Nat) (newId : String) : List ResponseRec × String :=
  match db.find? (pairMatches pid tid) with
  | some r =>
    (db.map (fun q =>
      if pairMatches pid tid q then
        { q with response_data := payload, submitted_at := now }
      else q), r.id)
  | none =>
    (db ++ [{ id := newId, participant_id := pid, task_id := tid,
              response_data := payload, submitted_at := now, created_at := now }],
     newId)

/-- The optional filters accepted by `read_responses`. -/
structure ResponseQuery where
  participant_id : Option String := none
  task_id : Option String := none
deriving Repr, DecidableEq

/-- Exact-match conjunction semantics of the repository filter for responses. -/
def responseMatches (q : ResponseQuery) (r : ResponseRec) : Bool :=
  (match q.participant_id with | none => true | some v => r.participant_id == v) &&
  (match q.task_id with | none => true | some v => r.task_id == v)

/-- Modelled from the spec: `read_responses` (the `list` operation of the
ResponseIngestor) is also part of the exercise of Step 2.3.2; modelled as the
plain filtered listing every other component uses. -/
def read_responses (db : List ResponseRec) (q : ResponseQuery) : List ResponseRec :=
  db.filter (responseMatches q)

/-! ## AI analysis service

`api/src/services/ai_service.py`.  The OpenAI / Anthropic clients are the
external inference collaborator; each is modelled as an oracle function taking
the number of calls made so far and the prompt, and returning either the raw
completion text or a failure.  `AIState` counts the calls actually issued. -/

/-- Failure modes of the external inference collaborator. -/
inductive AIError where
  | timeout
  | serverError (code : Nat)
  | rateLimited
  | malformedOutput
deriving Repr, DecidableEq

/-- The `str(e)` text the service wraps into its own exception message. -/
def AIError.message : AIError → String
  | .timeout => "Request timed out"
  | .serverError c => "Server error " ++ toString c
  | .rateLimited => "Rate limited"
  | .malformedOutput => "Malformed output"

/-- Which API keys were present when `AIService.__init__` ran: a client exists
exactly when its key was configured. -/
structure AIService where
  openai_configured : Bool
  anthropic_configured : Bool
deriving Repr, DecidableEq

/-- Count of calls actually issued to each external client. -/
structure AIState where
  anthropicCalls : Nat
  openaiCalls : Nat
deriving Repr, DecidableEq

/-- The prompt `analyze_text_response` builds from the response text and the
optional context (instruction boilerplate abbreviated; it is a fixed suffix). -/
def analysisPrompt (text : String) (context : Option String) : String :=
  "Analyze the following participant response and extract insights:\n\nRESPONSE: "
    ++ text ++ "\n\n"
    ++ (match context with | some c => "CONTEXT: " ++ c | none => "")
    ++ "\n\nProvide a JSON analysis with sentiment, themes, key_phrases, emotions, insights.\n\nFormat as valid JSON."

/-- The markdown-fence stripping of `analyze_text_response`:
`content.split('...')[1].split('...')[0]` on the json fence when present,
else on a plain fence, else the content unchanged. -/
def extractJson (content : String) : String :=
  if (content.splitOn "```json").length > 1 then
    (((content.splitOn "```json").getD 1 "").splitOn "```").getD 0 ""
  else if (content.splitOn "```").length > 1 then
    (((content.splitOn "```").getD 1 "").splitOn "```").getD 0 ""
  else content

/-- `analyze_text_response` from `api/src/services/ai_service.py`: raises at
once when no Anthropic client is configured (no call is made); otherwise it
issues exactly one call to the external collaborator with the built prompt,
strips markdown fences from the completion and parses it (`jsonParse` stands
for `json.loads`); any failure inside the try block surfaces immediately,
wrapped in a "Text analysis failed" exception.  There is no cache lookup and
no retry. -/
def analyze_text_response (svc : AIService)
    (anthropic : Nat → String → Except AIError String)
    (jsonParse : String → Option String)
    (st : AIState) (text : String) (context : Option String) :
    Except String String × AIState :=
  if !svc.anthropic_configured then
    (.error "Anthropic API key not configured", st)
  else
    let st2 : AIState := { st with anthropicCalls := st.anthropicCalls + 1 }
    let res : Except String String :=
      match anthropic st.anthropicCalls (analysisPrompt text context) with
      | .error e => .error ("Text analysis failed: " ++ e.message)
      | .ok content =>
        match jsonParse (extractJson content).trim with
        | none => .error "Text analysis failed: Expecting value"
        | some r => .ok r
    (res, st2)

/-- The `study_data` dict handed to `synthesize_study_insights`: the study
payload together with all accumulated response texts. -/
structure StudyData where
  study_title : String
  responses : List String
deriving Repr, DecidableEq

/-- Stands for `json.dumps(study_data, indent=2)` inside the synthesis prompt. -/
def dumpStudyData (d : StudyData) : String :=
  d.study_title ++ "\n" ++ String.intercalate "\n" d.responses

/-- The prompt `synthesize_study_insights` builds from the study data
(instruction boilerplate abbreviated; it is a fixed prefix and suffix). -/
def synthesisPrompt (d : StudyData) : String :=
  "You are analyzing a completed consumer research study. Based on all participant responses and data, provide a comprehensive analysis.\n\nSTUDY DATA:\n"
    ++ dumpStudyData d
    ++ "\n\nProvide a comprehensive JSON analysis.\n\nBe specific, actionable, and business-focused."

/-- `synthesize_study_insights` from `api/src/services/ai_service.py`: raises
at once when no OpenAI client is configured (no call is made); otherwise it
issues exactly one call to the external collaborator with the built prompt and
parses the completion; any failure inside the try block surfaces immediately,
wrapped in a "Study synthesis failed" exception.  There is no check on the
number of responses, no InsufficientData result and no retry. -/
def synthesize_study_insights (svc : AIService)
    (openai : Nat → String → Except AIError String)
    (jsonParse : String → Option String)
    (st : AIState) (study_data : StudyData) :
    Except String String × AIState :=
  if !svc.openai_configured then
    (.error "OpenAI API key not configured", st)
  else
    let st2 : AIState := { st with openaiCalls := st.openaiCalls + 1 }
    let res : Except String String :=
      match openai st.openaiCalls (synthesisPrompt study_data) with
      | .error e => .error ("Study synthesis failed: " ++ e.message)
      | .ok content =>
        match jsonParse content with
        | none => .error "Study synthesis failed: Expecting value"
        | some r => .ok r
    (res, st2)

/-! ## Participant lifecycle: status transitions and timestamps (C4, C5) -/

/-- Claim C4 counterexample: the participant is in the terminal status
`completed`, yet `update_participant` applies the requested transition to
`started` successfully — it returns the updated row instead of failing with
InvalidTransition, the stored status changes, and `started_at` is even
re-stamped. -/
theorem update_participant_illegal_transition_cex :
    update_participant
      [{ id := "p1", study_id := "s1", contact := "ann at example.com",
         demographics := none, status := "completed", invited_at := some 1,
         started_at := some 2, completed_at := some 3, created_at := 0,
         updated_at := 0 }]
      "p1" { status := some "started" } 10
    = .ok ([{ id := "p1", study_id := "s1", contact := "ann at example.com",
              demographics := none, status := "started", invited_at := some 1,
              started_at := some 10, completed_at := some 3, created_at := 0,
              updated_at := 10 }], "p1") := by
  rfl

/-- Claim C4 amended: `update_participant` performs no transition validation at
all.  For every participant table, non-empty participant id and requested
status value, the update succeeds and every row with that id ends with exactly
the requested status, whatever status it held before; rows with other ids are
unchanged. -/
theorem update_participant_any_status (db : List Participant) (pid v : String)
    (patch : ParticipantPatch) (now : Nat)
    (hp : pid ≠ "") (hv : patch.status = some v) :
    ∃ db2, update_participant db pid patch now = .ok (db2, pid)
      ∧ (∀ p ∈ db2, p.id = pid → p.status = v)
      ∧ (∀ p ∈ db, p.id ≠ pid → p ∈ db2) := by
  have hne : ¬ (patch.isEmpty = true) := by
    simp [ParticipantPatch.isEmpty, hv]
  unfold update_participant
  rw [if_neg hp, if_neg hne]
  refine ⟨_, rfl, ?_, ?_⟩
  · intro p hp2 hid
    rcases List.mem_map.mp hp2 with ⟨q, _, rfl⟩
    by_cases hq : q.id = pid
    · rw [if_pos (by simp [hq])] at hid ⊢
      simp only [hv]
      split_ifs <;> simp [applyPatch, hv]
    · rw [if_neg (by simp [hq])] at hid
      exact absurd hid hq
  · intro p hp2 hid
    refine List.mem_map.mpr ⟨p, hp2, ?_⟩
    rw [if_neg (by simp [hid])]

/-- Claim C5 counterexample: the participant already carries
`started_at = some 5`; repeating the transition to `started` at time 9
overwrites the stored timestamp with 9 instead of leaving it unchanged. -/
theorem update_participant_restamp_cex :
    update_participant
      [{ id := "p2", study_id := "s1", contact := "bo at example.com",
         demographics := none, status := "started", invited_at := some 1,
         started_at := some 5, completed_at := none, created_at := 0,
         updated_at := 0 }]
      "p2" { status := some "started" } 9
    = .ok ([{ id := "p2", study_id := "s1", contact := "bo at example.com",
              demographics := none, status := "started", invited_at := some 1,
              started_at := some 9, completed_at := none, created_at := 0,
              updated_at := 9 }], "p2") := by
  rfl

/-- Claim C5 amended: `update_participant` stamps `started_at` (resp.
`completed_at`) with the current time on EVERY update whose dict requests
status `started` (resp. `completed`) and carries no `started_at` (resp.
`completed_at`) key itself — including a repeated transition into a status the
participant already holds — so the stored timestamp is overwritten with each
retry rather than written exactly once.  (`invited_at` is set by
`create_participant` at enrollment when absent from the input.)  The two
conjuncts cover the `started` and the `completed` transition. -/
theorem update_participant_restamps
    (db dbC : List Participant) (pid pidC : String)
    (patchS patchC : ParticipantPatch) (now nowC : Nat)
    (hp : pid ≠ "") (hpC : pidC ≠ "")
    (hstS : patchS.status = some "started") (hsaS : patchS.started_at = none)
    (hstC : patchC.status = some "completed") (hcaC : patchC.completed_at = none) :
    (∃ db2, update_participant db pid patchS now = .ok (db2, pid)
      ∧ (∀ p ∈ db2, p.id = pid → p.started_at = some now))
    ∧ (∃ db2, update_participant dbC pidC patchC nowC = .ok (db2, pidC)
      ∧ (∀ p ∈ db2, p.id = pidC → p.completed_at = some nowC)) := by
  constructor
  · have hne : ¬ (patchS.isEmpty = true) := by
      simp [ParticipantPatch.isEmpty, hstS]
    unfold update_participant
    rw [if_neg hp, if_neg hne]
    refine ⟨_, rfl, ?_⟩
    intro p hp2 hid
    rcases List.mem_map.mp hp2 with ⟨q, _, rfl⟩
    by_cases hq : q.id = pid
    · rw [if_pos (by simp [hq])] at hid ⊢
      simp only [hstS, hsaS]
      simp [applyPatch]
    · rw [if_neg (by simp [hq])] at hid
      exact absurd hid hq
  · have hne : ¬ (patchC.isEmpty = true) := by
      simp [ParticipantPatch.isEmpty, hstC]
    unfold update_participant
    rw [if_neg hpC, if_neg hne]
    refine ⟨_, rfl, ?_⟩
    intro p hp2 hid
    rcases List.mem_map.mp hp2 with ⟨q, _, rfl⟩
    by_cases hq : q.id = pidC
    · rw [if_pos (by simp [hq])] at hid ⊢
      simp only [hstC, hcaC]
      simp [applyPatch]
    · rw [if_neg (by simp [hq])] at hid
      exact absurd hid hq

/-! ## AI analysis pipeline: caching, thresholds, retries (C6, C7, C8) -/

/-- Claim C6 counterexample: two `analyze_text_response` calls with
byte-identical input ("I love it", no context) against a configured service
and a total oracle issue TWO calls to the external inference collaborator, not
one — there is no fingerprint cache. -/
theorem analyze_text_response_no_cache_cex :
    ((analyze_text_response { openai_configured := true, anthropic_configured := true }
        (fun _ _ => .ok "analysis")
        (fun s => some s)
        ((analyze_text_response { openai_configured := true, anthropic_configured := true }
            (fun _ _ => .ok "analysis")
            (fun s => some s)
            { anthropicCalls := 0, openaiCalls := 0 } "I love it" none).2)
        "I love it" none).2).anthropicCalls = 2 ∧ (2 : Nat) ≠ 1 := by
  exact ⟨rfl, by decide⟩

/-- Claim C6 amended: `analyze_text_response` performs no caching at all — on
a service with a configured Anthropic client, every call issues exactly one
call to the external inference collaborator, so two calls with byte-identical
input issue two external calls in total. -/
theorem analyze_text_response_always_calls (svc : AIService)
    (anthropic : Nat → String → Except AIError String)
    (jsonParse : String → Option String)
    (st : AIState) (text : String) (context : Option String)
    (h : svc.anthropic_configured = true) :
    (analyze_text_response svc anthropic jsonParse
        (analyze_text_response svc anthropic jsonParse st text context).2
        text context).2.anthropicCalls = st.anthropicCalls + 2 := by
  simp [analyze_text_response, h]

/-- Claim C7 counterexample: synthesizing a study with ZERO responses against
a configured service returns the parsed external result and issues exactly one
external call — it neither returns an InsufficientData result nor skips the
external service. -/
theorem synthesize_no_insufficient_data_cex :
    (synthesize_study_insights { openai_configured := true, anthropic_configured := true }
        (fun _ _ => .ok "summary") (fun s => some s)
        { anthropicCalls := 0, openaiCalls := 0 }
        { study_title := "Empty study", responses := [] }).1 = .ok "summary"
    ∧ (synthesize_study_insights { openai_configured := true, anthropic_configured := true }
        (fun _ _ => .ok "summary") (fun s => some s)
        { anthropicCalls := 0, openaiCalls := 0 }
        { study_title := "Empty study", responses := [] }).2.openaiCalls = 1 := by
  exact ⟨rfl, rfl⟩

/-- Claim C7 amended: `synthesize_study_insights` has no minimum-data check:
on a service with a configured OpenAI client it issues exactly one call to the
external inference collaborator even when the study has zero responses; no
InsufficientData result exists in the code. -/
theorem synthesize_calls_with_zero_responses (svc : AIService)
    (openai : Nat → String → Except AIError String)
    (jsonParse : String → Option String)
    (st : AIState) (d : StudyData)
    (h : svc.openai_configured = true) (hd : d.responses = []) :
    (synthesize_study_insights svc openai jsonParse st d).2.openaiCalls
      = st.openaiCalls + 1 := by
  simp [synthesize_study_insights, h]

/-- Claim C8 counterexample: the external collaborator times out on the first
attempt (call number 0) and would succeed on any later attempt; a retrying
client would recover, but `analyze_text_response` surfaces the wrapped error
immediately after exactly one external call — there is no retry or backoff. -/
theorem analyze_text_response_no_retry_cex :
    (analyze_text_response { openai_configured := true, anthropic_configured := true }
        (fun n _ => if n = 0 then .error .timeout else .ok "fine")
        (fun s => some s)
        { anthropicCalls := 0, openaiCalls := 0 } "hello" none).1
      = .error "Text analysis failed: Request timed out"
    ∧ (analyze_text_response { openai_configured := true, anthropic_configured := true }
        (fun n _ => if n = 0 then .error .timeout else .ok "fine")
        (fun s => some s)
        { anthropicCalls := 0, openaiCalls := 0 } "hello" none).2.anthropicCalls = 1 := by
  exact ⟨rfl, rfl⟩

/-- Claim C8 amended: there is no retry anywhere in the analysis pipeline.  On
a configured service, ANY failure of the external inference collaborator —
transient or not — surfaces to the caller immediately after exactly one
external call, wrapped in the component error message; on a service whose
credentials are missing, the configuration failure surfaces immediately with
zero external calls.  This holds for both `analyze_text_response` and
`synthesize_study_insights`. -/
theorem ai_failure_surfaces_immediately (svcT svcF : AIService)
    (anthropic openai : Nat → String → Except AIError String)
    (jsonParse : String → Option String)
    (st : AIState) (text : String) (context : Option String) (d : StudyData)
    (e e2 : AIError)
    (hT1 : svcT.anthropic_configured = true) (hT2 : svcT.openai_configured = true)
    (hF1 : svcF.anthropic_configured = false) (hF2 : svcF.openai_configured = false)
    (he : anthropic st.anthropicCalls (analysisPrompt text context) = .error e)
    (he2 : openai st.openaiCalls (synthesisPrompt d) = .error e2) :
    analyze_text_response svcT anthropic jsonParse st text context
      = (.error ("Text analysis failed: " ++ e.message),
         { st with anthropicCalls := st.anthropicCalls + 1 })
    ∧ analyze_text_response svcF anthropic jsonParse st text context
      = (.error "Anthropic API key not configured", st)
    ∧ synthesize_study_insights svcT openai jsonParse st d
      = (.error ("Study synthesis failed: " ++ e2.message),
         { st with openaiCalls := st.openaiCalls + 1 })
    ∧ synthesize_study_insights svcF openai jsonParse st d
      = (.error "OpenAI API key not configured", st) := by
  refine ⟨?_, ?_, ?_, ?_⟩
  · simp [analyze_text_response, hT1, he]
  · simp [analyze_text_response, hF1]
  · simp [synthesize_study_insights, hT2, he2]
  · simp [synthesize_study_insights, hF2]

/-- Witness for `update_participant_any_status` at a concrete input: a
participant in terminal status `completed` is moved to `started`. -/
theorem update_participant_any_status_witness :
    ("p9" : String) ≠ ""
    ∧ ({ status := some "started" } : ParticipantPatch).status = some "started"
    ∧ ∃ db2, update_participant
        [{ id := "p9", study_id := "s1", contact := "c at example.com",
           demographics := none, status := "completed", invited_at := some 1,
           started_at := some 2, completed_at := some 3, created_at := 0,
           updated_at := 0 }]
        "p9" { status := some "started" } 4 = .ok (db2, "p9")
      ∧ (∀ p ∈ db2, p.id = "p9" → p.status = "started")
      ∧ (∀ p ∈ [{ id := "p9", study_id := "s1", contact := "c at example.com",
                  demographics := none, status := "completed", invited_at := some 1,
                  started_at := some 2, completed_at := some 3, created_at := 0,
                  updated_at := 0 }], p.id ≠ "p9" → p ∈ db2) :=
  ⟨by decide, rfl,
   update_participant_any_status _ "p9" "started" _ 4 (by decide) rfl⟩

/-- Witness for `update_participant_restamps` at a concrete input: repeating
the transition to `started` at time 9 stamps `started_at` with 9. -/
theorem update_participant_restamps_witness :
    ("p8" : String) ≠ "" ∧ ("p7" : String) ≠ ""
    ∧ ({ status := some "started" } : ParticipantPatch).status = some "started"
    ∧ ({ status := some "started" } : ParticipantPatch).started_at = none
    ∧ ({ status := some "completed" } : ParticipantPatch).status = some "completed"
    ∧ ({ status := some "completed" } : ParticipantPatch).completed_at = none
    ∧ ((∃ db2, update_participant
        [{ id := "p8", study_id := "s1", contact := "d at example.com",
           demographics := none, status := "started", invited_at := some 1,
           started_at := some 5, completed_at := none, created_at := 0,
           updated_at := 0 }]
        "p8" { status := some "started" } 9 = .ok (db2, "p8")
      ∧ (∀ p ∈ db2, p.id = "p8" → p.started_at = some 9))
    ∧ (∃ db2, update_participant
        [{ id := "p7", study_id := "s1", contact := "e at example.com",
           demographics := none, status := "completed", invited_at := some 1,
           started_at := some 2, completed_at := some 3, created_at := 0,
           updated_at := 0 }]
        "p7" { status := some "completed" } 11 = .ok (db2, "p7")
      ∧ (∀ p ∈ db2, p.id = "p7" → p.completed_at = some 11))) :=
  ⟨by decide, by decide, rfl, rfl, rfl, rfl,
   update_participant_restamps _ _ "p8" "p7" _ _ 9 11
     (by decide) (by decide) rfl rfl rfl rfl⟩

/-- Witness for `analyze_text_response_always_calls` at a concrete input. -/
theorem analyze_text_response_always_calls_witness :
    ({ openai_configured := true, anthropic_configured := true } : AIService).anthropic_configured = true
    ∧ (analyze_text_response { openai_configured := true, anthropic_configured := true }
        (fun _ _ => .ok "analysis") (fun s => some s)
        (analyze_text_response { openai_configured := true, anthropic_configured := true }
          (fun _ _ => .ok "analysis") (fun s => some s)
          { anthropicCalls := 0, openaiCalls := 0 } "nice" none).2
        "nice" none).2.anthropicCalls = 0 + 2 :=
  ⟨rfl, analyze_text_response_always_calls _ _ _ _ "nice" none rfl⟩

/-- Witness for `synthesize_calls_with_zero_responses` at a concrete input. -/
theorem synthesize_calls_with_zero_responses_witness :
    ({ openai_configured := true, anthropic_configured := true } : AIService).openai_configured = true
    ∧ ({ study_title := "S", responses := [] } : StudyData).responses = []
    ∧ (synthesize_study_insights { openai_configured := true, anthropic_configured := true }
        (fun _ _ => .ok "summary") (fun s => some s)
        { anthropicCalls := 0, openaiCalls := 0 }
        { study_title := "S", responses := [] }).2.openaiCalls = 0 + 1 :=
  ⟨rfl, rfl, synthesize_calls_with_zero_responses _ _ _ _ _ rfl rfl⟩

/-- Witness for `ai_failure_surfaces_immediately` at a concrete input: a
timeout for the analysis client, a server error for the synthesis client. -/
theorem ai_failure_surfaces_immediately_witness :
    ({ openai_configured := true, anthropic_configured := true } : AIService).anthropic_configured = true
    ∧ ({ openai_configured := true, anthropic_configured := true } : AIService).openai_configured = true
    ∧ ({ openai_configured := false, anthropic_configured := false } : AIService).anthropic_configured = false
    ∧ ({ openai_configured := false, anthropic_configured := false } : AIService).openai_configured = false
    ∧ (fun (_ : Nat) (_ : String) => (.error .timeout : Except AIError String)) 0
        (analysisPrompt "x" none) = .error AIError.timeout
    ∧ (fun (_ : Nat) (_ : String) => (.error (.serverError 500) : Except AIError String)) 0
        (synthesisPrompt { study_title := "S", responses := [] })
        = .error (AIError.serverError 500)
    ∧ analyze_text_response { openai_configured := true, anthropic_configured := true }
        (fun _ _ => .error .timeout) (fun s => some s)
        { anthropicCalls := 0, openaiCalls := 0 } "x" none
      = (.error ("Text analysis failed: " ++ AIError.timeout.message),
         { anthropicCalls := 0 + 1, openaiCalls := 0 })
    ∧ analyze_text_response { openai_configured := false, anthropic_configured := false }
        (fun _ _ => .error .timeout) (fun s => some s)
        { anthropicCalls := 0, openaiCalls := 0 } "x" none
      = (.error "Anthropic API key not configured", { anthropicCalls := 0, openaiCalls := 0 })
    ∧ synthesize_study_insights { openai_configured := true, anthropic_configured := true }
        (fun _ _ => .error (.serverError 500)) (fun s => some s)
        { anthropicCalls := 0, openaiCalls := 0 } { study_title := "S", responses := [] }
      = (.error ("Study synthesis failed: " ++ (AIError.serverError 500).message),
         { anthropicCalls := 0, openaiCalls := 0 + 1 })
    ∧ synthesize_study_insights { openai_configured := false, anthropic_configured := false }
        (fun _ _ => .error (.serverError 500)) (fun s => some s)
        { anthropicCalls := 0, openaiCalls := 0 } { study_title := "S", responses := [] }
      = (.error "OpenAI API key not configured", { anthropicCalls := 0, openaiCalls := 0 }) := by
  have h := ai_failure_surfaces_immediately
    { openai_configured := true, anthropic_configured := true }
    { openai_configured := false, anthropic_configured := false }
    (fun _ _ => .error .timeout) (fun _ _ => .error (.serverError 500))
    (fun s => some s) { anthropicCalls := 0, openaiCalls := 0 } "x" none
    { study_title := "S", responses := [] } .timeout (.serverError 500)
    rfl rfl rfl rfl rfl rfl
  exact ⟨rfl, rfl, rfl, rfl, rfl, rfl, h.1, h.2.1, h.2.2.1, h.2.2.2⟩

/-! ## Task sequencer: helper lemmas -/

/-- The initial value bounds a `foldl max`. -/
theorem le_foldl_max (l : List Int) (a : Int) : a ≤ l.foldl max a := by
  induction l generalizing a with
  | nil => exact le_refl a
  | cons b t ih => exact le_trans (le_max_left a b) (ih (max a b))

/-- Every member bounds a `foldl max`. -/
theorem mem_le_foldl_max {l : List Int} {x : Int} (h : x ∈ l) (a : Int) :
    x ≤ l.foldl max a := by
  induction l generalizing a with
  | nil => cases h
  | cons b t ih =>
    rcases List.mem_cons.mp h with rfl | h2
    · exact le_trans (le_max_right a x) (le_foldl_max t (max a x))
    · exact ih h2 (max a b)

/-- A `foldl max` is the initial value or a member of the list. -/
theorem foldl_max_mem (l : List Int) (a : Int) :
    l.foldl max a = a ∨ l.foldl max a ∈ l := by
  induction l generalizing a with
  | nil => exact Or.inl rfl
  | cons b t ih =>
    have hc : (b :: t).foldl max a = t.foldl max (max a b) := rfl
    rcases ih (max a b) with h | h
    · rcases max_choice a b with h2 | h2
      · exact Or.inl (by rw [hc, h, h2])
      · exact Or.inr (by rw [hc, h, h2]; exact List.mem_cons_self b t)
    · exact Or.inr (by rw [hc]; exact List.mem_cons_of_mem b h)

/-- `create_task` either raises during validation (leaving the table as it
was) or appends exactly one row built from the input. -/
theorem create_task_ok_or_error (db : List Task) (input : TaskInput) (now : Nat)
    (newId : String) :
    (∃ msg, create_task db input now newId = .error msg) ∨
    create_task db input now newId = .ok (db ++
      [{ id := newId,
         study_id := input.study_id.getD "", type := input.type.getD "",
         title := input.title.getD "", instructions := input.instructions,
         order_index := match input.order_index with
           | some i => i
           | none => maxOrderIndex db (input.study_id.getD "") + 1,
         created_at := now, updated_at := now }], newId) := by
  unfold create_task
  split_ifs <;> first
    | exact Or.inl ⟨_, rfl⟩
    | exact Or.inr rfl

/-! ## C9: the default order index of `create_task` -/

/-- Claim C9 counterexample: the study already holds one task whose
`order_index` is -3 (an explicit index `create_task` accepts unvalidated), so
the claimed assignment "maximum existing order_index plus 1" would be -2; the
code computes `max(existing + [0]) + 1` and assigns 1 instead. -/
theorem create_task_default_index_cex :
    create_task
      [{ id := "t1", study_id := "s1", type := "camera", title := "T1",
         instructions := none, order_index := -3, created_at := 0,
         updated_at := 0 }]
      { study_id := some "s1", type := some "discussion", title := some "T2" }
      5 "t2"
    = .ok ([{ id := "t1", study_id := "s1", type := "camera", title := "T1",
               instructions := none, order_index := -3, created_at := 0,
               updated_at := 0 },
            { id := "t2", study_id := "s1", type := "discussion", title := "T2",
               instructions := none, order_index := 1, created_at := 5,
               updated_at := 5 }], "t2")
    ∧ (1 : Int) ≠ -3 + 1 := by
  exact ⟨rfl, by decide⟩

/-- Claim C9 amended: `create_task` without an explicit `order_index` assigns
`max(0, maximum existing order_index of the study) + 1`: the new index is
strictly greater than every existing index of the study, is at least 1, and is
either 1 or one more than some existing index.  For a study whose indices are
all non-negative this coincides with "maximum plus 1", and for a study with no
tasks it is 1. -/
theorem create_task_default_index (db : List Task) (s ty ti : String)
    (now : Nat) (nid : String)
    (hs : s ≠ "") (hty : ty ∈ valid_types) (hti : ti ≠ "") :
    ∃ t : Task,
      create_task db { study_id := some s, type := some ty, title := some ti }
          now nid = .ok (db ++ [t], nid)
      ∧ t.order_index = maxOrderIndex db s + 1
      ∧ (∀ u ∈ tasksOfStudy db s, u.order_index < t.order_index)
      ∧ 1 ≤ t.order_index
      ∧ (t.order_index = 1 ∨ ∃ u ∈ tasksOfStudy db s, t.order_index = u.order_index + 1) := by
  have hty2 : ty ≠ "" := by
    rintro rfl
    simp [valid_types] at hty
  have hcontains : valid_types.contains ty = true := by
    simpa [List.elem_iff] using hty
  have hmax : ∀ u ∈ tasksOfStudy db s, u.order_index ≤ maxOrderIndex db s := by
    intro u hu
    have h2 : u.order_index ∈ (tasksOfStudy db s).map (fun t => t.order_index) :=
      List.mem_map_of_mem _ hu
    exact mem_le_foldl_max h2 0
  have hpos : (0 : Int) ≤ maxOrderIndex db s := le_foldl_max _ 0
  refine ⟨{ id := nid, study_id := s, type := ty, title := ti,
            instructions := none, order_index := maxOrderIndex db s + 1,
            created_at := now, updated_at := now }, ?_, rfl, ?_, ?_, ?_⟩
  · unfold create_task
    rw [if_neg (by simpa using hs), if_neg (by simpa using hty2),
        if_neg (by simpa using hti), if_neg (by simp [hty])]
    rfl
  · intro u hu
    have h2 := hmax u hu
    show u.order_index < maxOrderIndex db s + 1
    omega
  · show (1 : Int) ≤ maxOrderIndex db s + 1
    omega
  · rcases foldl_max_mem ((tasksOfStudy db s).map (fun t => t.order_index)) 0 with h | h
    · left
      show maxOrderIndex db s + 1 = 1
      have h2 : maxOrderIndex db s = 0 := h
      omega
    · right
      rcases List.mem_map.mp h with ⟨u, hu, hu2⟩
      refine ⟨u, hu, ?_⟩
      show maxOrderIndex db s + 1 = u.order_index + 1
      have h2 : maxOrderIndex db s = u.order_index := hu2.symm
      omega

/-- Witness for `create_task_default_index` at a concrete input: appending the
first task of an empty study assigns index 1. -/
theorem create_task_default_index_witness :
    ("s7" : String) ≠ "" ∧ "camera" ∈ valid_types ∧ ("First" : String) ≠ ""
    ∧ ∃ t : Task,
      create_task [] { study_id := some "s7", type := some "camera", title := some "First" }
          3 "t7" = .ok ([] ++ [t], "t7")
      ∧ t.order_index = maxOrderIndex [] "s7" + 1
      ∧ (∀ u ∈ tasksOfStudy [] "s7", u.order_index < t.order_index)
      ∧ 1 ≤ t.order_index
      ∧ (t.order_index = 1 ∨ ∃ u ∈ tasksOfStudy [] "s7", t.order_index = u.order_index + 1) :=
  ⟨by decide, by decide, by decide,
   create_task_default_index [] "s7" "camera" "First" 3 "t7"
     (by decide) (by decide) (by decide)⟩

/-! ## C10, C2: what `reorder_tasks` actually does -/

/-- The sequential update loop of `reorder_tasks`, characterised as one map:
provided the listed ids are distinct, a task of the study whose id occurs in
the list ends with `order_index` equal to the start index plus the position of
its id, and every other task is untouched. -/
theorem applyReorder_eq (sid : String) (now : Nat) :
    ∀ (ids : List String), ids.Nodup → ∀ (k : Nat) (db : List Task),
    applyReorder sid now (enumFrom k ids) db =
      db.map (fun t =>
        if t.study_id == sid && ids.contains t.id then
          { t with order_index := ((k + ids.indexOf t.id : Nat) : Int),
                   updated_at := now }
        else t) := by
  intro ids
  induction ids with
  | nil =>
    intro _ k db
    simp [enumFrom, applyReorder]
  | cons a as ih =>
    intro hnd k db
    have hna : a ∉ as := (List.nodup_cons.mp hnd).1
    have hih := ih (List.nodup_cons.mp hnd).2
    show applyReorder sid now (enumFrom (k + 1) as) (reorderStep sid now k a db) = _
    rw [hih (k + 1) (reorderStep sid now k a db)]
    unfold reorderStep
    rw [List.map_map]
    apply List.map_congr_left
    intro t _
    simp only [Function.comp_apply]
    by_cases hst : t.study_id = sid
    · by_cases hid : t.id = a
      · simp [hid, hst, hna, List.indexOf_cons_self]
      · have hne2 : a ≠ t.id := fun h => hid h.symm
        by_cases hmem : t.id ∈ as
        · simp [hid, hmem, hst, List.indexOf_cons_ne as hne2]
          omega
        · simp [hid, hmem, hst]
    · simp [hst]

/-- Claim C10: for a non-empty study id and a non-empty duplicate-free id
list, `reorder_tasks` succeeds with its success message and returns the table
in which exactly the stored tasks whose id is listed AND whose `study_id`
matches are rewritten — `order_index` becomes the 1-based position of the id
in the list and `updated_at` the current time — while every field of every
other task (tasks of the study missing from the list, and listed ids of other
studies, which are skipped silently) is unchanged. -/
theorem reorder_tasks_characterization (db : List Task) (sid : String)
    (ids : List String) (now : Nat)
    (h1 : sid ≠ "") (h2 : ids ≠ []) (h3 : ids.Nodup) :
    reorder_tasks db sid ids now
      = .ok (db.map (fun t =>
          if t.study_id == sid && ids.contains t.id then
            { t with order_index := ((1 + ids.indexOf t.id : Nat) : Int),
                     updated_at := now }
          else t),
        "Tasks reordered successfully") := by
  unfold reorder_tasks
  rw [if_neg h1, if_neg h2, applyReorder_eq sid now ids h3 1 db]

/-- Witness for `reorder_tasks_characterization` at a concrete input: two
tasks of study s1 are renumbered by their list positions, a listed id of
study s2 is skipped, and an unlisted task of s1 is untouched. -/
theorem reorder_tasks_characterization_witness :
    ("s1" : String) ≠ "" ∧ (["t2", "t1"] : List String) ≠ []
    ∧ (["t2", "t1"] : List String).Nodup
    ∧ reorder_tasks
        [{ id := "t1", study_id := "s1", type := "camera", title := "A",
           instructions := none, order_index := 1, created_at := 0, updated_at := 0 },
         { id := "t2", study_id := "s1", type := "discussion", title := "B",
           instructions := none, order_index := 2, created_at := 0, updated_at := 0 },
         { id := "t3", study_id := "s1", type := "gallery", title := "C",
           instructions := none, order_index := 3, created_at := 0, updated_at := 0 },
         { id := "t2", study_id := "s2", type := "collage", title := "D",
           instructions := none, order_index := 4, created_at := 0, updated_at := 0 }]
        "s1" ["t2", "t1"] 9
      = .ok ([{ id := "t1", study_id := "s1", type := "camera", title := "A",
                instructions := none, order_index := 1, created_at := 0, updated_at := 0 },
              { id := "t2", study_id := "s1", type := "discussion", title := "B",
                instructions := none, order_index := 2, created_at := 0, updated_at := 0 },
              { id := "t3", study_id := "s1", type := "gallery", title := "C",
                instructions := none, order_index := 3, created_at := 0, updated_at := 0 },
              { id := "t2", study_id := "s2", type := "collage", title := "D",
                instructions := none, order_index := 4, created_at := 0, updated_at := 0 }].map
          (fun t =>
            if t.study_id == "s1" && (["t2", "t1"] : List String).contains t.id then
              { t with order_index := ((1 + (["t2", "t1"] : List String).indexOf t.id : Nat) : Int),
                       updated_at := 9 }
            else t),
        "Tasks reordered successfully") :=
  ⟨by decide, by decide, by decide,
   reorder_tasks_characterization _ "s1" ["t2", "t1"] 9
     (by decide) (by decide) (by decide)⟩

/-- Claim C2 counterexample: study s1 holds tasks t1 and t2, and the supplied
id set \x7bt2\x7d is NOT equal to the current task set \x7bt1, t2\x7d, yet
`reorder_tasks` succeeds (no InvalidArgument) and changes the `order_index` of
t2 from 2 to 1 — which also leaves t1 and t2 sharing index 1. -/
theorem reorder_tasks_mismatch_cex :
    reorder_tasks
      [{ id := "t1", study_id := "s1", type := "camera", title := "A",
         instructions := none, order_index := 1, created_at := 0, updated_at := 0 },
       { id := "t2", study_id := "s1", type := "discussion", title := "B",
         instructions := none, order_index := 2, created_at := 0, updated_at := 0 }]
      "s1" ["t2"] 7
    = .ok ([{ id := "t1", study_id := "s1", type := "camera", title := "A",
              instructions := none, order_index := 1, created_at := 0, updated_at := 0 },
            { id := "t2", study_id := "s1", type := "discussion", title := "B",
              instructions := none, order_index := 1, created_at := 0, updated_at := 7 }],
      "Tasks reordered successfully") := by
  rfl

/-- Claim C2 amended: `reorder_tasks` does not validate the supplied id set at
all.  With a non-empty study id and a non-empty duplicate-free id list whose
set differs from the current task-id set of the study, the call still succeeds
with its success message; the listed tasks of the study are renumbered to
their list positions, and only the tasks left out of the list keep their
previous `order_index` (no all-or-nothing failure). -/
theorem reorder_tasks_mismatch_succeeds (db : List Task) (sid : String)
    (ids : List String) (now : Nat)
    (h1 : sid ≠ "") (h2 : ids ≠ []) (h3 : ids.Nodup)
    (h4 : ¬ ids.Perm ((tasksOfStudy db sid).map Task.id)) :
    ∃ db2, reorder_tasks db sid ids now = .ok (db2, "Tasks reordered successfully")
      ∧ ∀ t ∈ db, t.id ∉ ids → t ∈ db2 := by
  refine ⟨_, reorder_tasks_characterization db sid ids now h1 h2 h3, ?_⟩
  intro t ht hmem
  refine List.mem_map.mpr ⟨t, ht, ?_⟩
  rw [if_neg (by simp [hmem])]

/-- Witness for `reorder_tasks_mismatch_succeeds` at a concrete input: the
listed set \x7bt2\x7d differs from the task set \x7bt1, t2\x7d of s1; the call
succeeds and the unlisted t1 survives unchanged. -/
theorem reorder_tasks_mismatch_succeeds_witness :
    ("s1" : String) ≠ "" ∧ (["t2"] : List String) ≠ []
    ∧ (["t2"] : List String).Nodup
    ∧ ¬ (["t2"] : List String).Perm
        ((tasksOfStudy
          [{ id := "t1", study_id := "s1", type := "camera", title := "A",
             instructions := none, order_index := 1, created_at := 0, updated_at := 0 },
           { id := "t2", study_id := "s1", type := "discussion", title := "B",
             instructions := none, order_index := 2, created_at := 0, updated_at := 0 }]
          "s1").map Task.id)
    ∧ ∃ db2, reorder_tasks
        [{ id := "t1", study_id := "s1", type := "camera", title := "A",
           instructions := none, order_index := 1, created_at := 0, updated_at := 0 },
         { id := "t2", study_id := "s1", type := "discussion", title := "B",
           instructions := none, order_index := 2, created_at := 0, updated_at := 0 }]
        "s1" ["t2"] 7 = .ok (db2, "Tasks reordered successfully")
      ∧ ∀ t ∈ [{ id := "t1", study_id := "s1", type := "camera", title := "A",
                 instructions := none, order_index := 1, created_at := 0, updated_at := 0 },
               { id := "t2", study_id := "s1", type := "discussion", title := "B",
                 instructions := none, order_index := 2, created_at := 0, updated_at := 0 }],
          t.id ∉ (["t2"] : List String) → t ∈ db2 :=
  ⟨by decide, by decide, by decide, by decide,
   reorder_tasks_mismatch_succeeds _ "s1" ["t2"] 7
     (by decide) (by decide) (by decide) (by decide)⟩

/-! ## C3: per-(participant, task) uniqueness of responses -/

/-- A submission leaves exactly one row for its (participant, task) pair
whenever the pair held at most one row before: a fresh pair gains its single
row, an existing pair is updated in place. -/
theorem pairCount_create_response (db : List ResponseRec)
    (pid tid payload : String) (now : Nat) (newId : String)
    (h : pairCount db pid tid ≤ 1) :
    pairCount (create_response db pid tid payload now newId).1 pid tid = 1 := by
  cases hf : db.find? (pairMatches pid tid) with
  | none =>
    have h0 : ∀ r ∈ db, ¬ pairMatches pid tid r = true := List.find?_eq_none.mp hf
    have hnil : db.filter (pairMatches pid tid) = [] := by
      rw [List.filter_eq_nil_iff]
      exact h0
    simp only [create_response, hf, pairCount, List.filter_append, hnil,
      List.nil_append]
    simp [pairMatches]
  | some r0 =>
    have hr0 : r0 ∈ db := List.mem_of_find?_eq_some hf
    have hm0 : pairMatches pid tid r0 = true := List.find?_some hf
    have hge : 1 ≤ pairCount db pid tid := by
      have : r0 ∈ db.filter (pairMatches pid tid) := List.mem_filter.mpr ⟨hr0, hm0⟩
      have h2 := List.ne_nil_of_mem this
      have h3 := List.length_pos.mpr h2
      simpa [pairCount] using h3
    have hpres : (pairMatches pid tid) ∘ (fun q : ResponseRec =>
        if pairMatches pid tid q then
          { q with response_data := payload, submitted_at := now }
        else q) = pairMatches pid tid := by
      funext q
      by_cases hq : pairMatches pid tid q = true
      · simp only [Function.comp_apply, hq, if_pos]
        simp only [pairMatches] at hq ⊢
        exact hq
      · simp only [Function.comp_apply, hq]
        simp only [Bool.not_eq_true] at hq
        simp [hq]
    have hcount : pairCount (create_response db pid tid payload now newId).1 pid tid
        = pairCount db pid tid := by
      simp only [create_response, hf, pairCount]
      rw [← List.countP_eq_length_filter, ← List.countP_eq_length_filter,
        List.countP_map, hpres]
    omega

/-- Every row of the pair after a submission carries the submitted payload:
the updated rows are rewritten to it, the inserted row is built from it. -/
theorem create_response_payload (db : List ResponseRec)
    (pid tid payload : String) (now : Nat) (newId : String) :
    ∀ r ∈ (create_response db pid tid payload now newId).1,
      pairMatches pid tid r = true → r.response_data = payload := by
  intro r hr hm
  cases hf : db.find? (pairMatches pid tid) with
  | none =>
    simp only [create_response, hf] at hr
    rcases List.mem_append.mp hr with h2 | h2
    · exact absurd hm (List.find?_eq_none.mp hf r h2)
    · rcases List.mem_singleton.mp h2 with rfl
      rfl
  | some r0 =>
    simp only [create_response, hf] at hr
    rcases List.mem_map.mp hr with ⟨q, _, rfl⟩
    by_cases hq : pairMatches pid tid q = true
    · simp [hq]
    · rw [if_neg (by simp [hq])] at hm ⊢
      exact absurd hm hq

/-- Claim C3 (spec-modelled): after two submissions for the same
(participant, task) pair — starting from any table in which the pair holds at
most one row, as the uniqueness invariant guarantees — the listing filtered to
that pair returns exactly one row, and that row carries the payload of the
SECOND submission: the resubmission replaced the first row instead of adding a
duplicate. -/
theorem create_response_upsert_unique (db : List ResponseRec)
    (pid tid pay1 pay2 : String) (n1 n2 : Nat) (id1 id2 : String)
    (hInv : pairCount db pid tid ≤ 1) :
    (read_responses
        (create_response (create_response db pid tid pay1 n1 id1).1
          pid tid pay2 n2 id2).1
        { participant_id := some pid, task_id := some tid }).length = 1
    ∧ ∀ r ∈ read_responses
        (create_response (create_response db pid tid pay1 n1 id1).1
          pid tid pay2 n2 id2).1
        { participant_id := some pid, task_id := some tid },
      r.response_data = pay2 := by
  have hq : ∀ r : ResponseRec,
      responseMatches { participant_id := some pid, task_id := some tid } r
        = pairMatches pid tid r := fun r => rfl
  have h1 : pairCount (create_response db pid tid pay1 n1 id1).1 pid tid = 1 :=
    pairCount_create_response db pid tid pay1 n1 id1 hInv
  have h2 : pairCount (create_response (create_response db pid tid pay1 n1 id1).1
      pid tid pay2 n2 id2).1 pid tid = 1 :=
    pairCount_create_response _ pid tid pay2 n2 id2 (le_of_eq h1)
  constructor
  · have hfil : read_responses
        (create_response (create_response db pid tid pay1 n1 id1).1
          pid tid pay2 n2 id2).1
        { participant_id := some pid, task_id := some tid }
        = (create_response (create_response db pid tid pay1 n1 id1).1
            pid tid pay2 n2 id2).1.filter (pairMatches pid tid) := by
      unfold read_responses
      exact List.filter_congr (fun r _ => hq r)
    rw [hfil]
    exact h2
  · intro r hr
    have h3 := List.mem_filter.mp hr
    exact create_response_payload _ pid tid pay2 n2 id2 r h3.1 ((hq r) ▸ h3.2)

/-- Witness for `create_response_upsert_unique` at a concrete input: two
submissions into an empty table leave one row carrying the second payload. -/
theorem create_response_upsert_unique_witness :
    pairCount [] "p1" "t1" ≤ 1
    ∧ (read_responses
        (create_response (create_response [] "p1" "t1" "first answer" 1 "r1").1
          "p1" "t1" "revised answer" 2 "r2").1
        { participant_id := some "p1", task_id := some "t1" }).length = 1
    ∧ ∀ r ∈ read_responses
        (create_response (create_response [] "p1" "t1" "first answer" 1 "r1").1
          "p1" "t1" "revised answer" 2 "r2").1
        { participant_id := some "p1", task_id := some "t1" },
      r.response_data = "revised answer" :=
  ⟨by decide,
   (create_response_upsert_unique [] "p1" "t1" "first answer" "revised answer"
     1 2 "r1" "r2" (by decide)).1,
   (create_response_upsert_unique [] "p1" "t1" "first answer" "revised answer"
     1 2 "r1" "r2" (by decide)).2⟩

/-! ## C1: the ordering invariant under sequences of operations -/

/-- Appending one row splits the per-study filter. -/
theorem tasksOfStudy_append (db : List Task) (t : Task) (s : String) :
    tasksOfStudy (db ++ [t]) s
      = tasksOfStudy db s ++ (if t.study_id == s then [t] else []) := by
  simp [tasksOfStudy, List.filter_append, List.filter_singleton, Bool.cond_eq_ite]

/-- A well-formed `addTask` call preserves the ordering invariant: the fresh
row id keeps ids unique, and the defaulted index `max + 1` exceeds every
existing index of the study. -/
theorem TaskInv_applyOp {db : List Task} (hInv : TaskInv db) (op : TaskOp)
    (hLegal : legalOp db op) : TaskInv (applyOp db op) := by
  cases op with
  | addTask s ty ti nid now =>
    have hfresh : nid ∉ db.map Task.id := hLegal
    show TaskInv (applyOp db (.addTask s ty ti nid now))
    rcases create_task_ok_or_error db
        { study_id := some s, type := some ty, title := some ti } now nid with
      ⟨msg, he⟩ | he
    · show TaskInv (match create_task db
          { study_id := some s, type := some ty, title := some ti } now nid with
        | .ok (db2, _) => db2
        | .error _ => db)
      rw [he]
      exact hInv
    · show TaskInv (match create_task db
          { study_id := some s, type := some ty, title := some ti } now nid with
        | .ok (db2, _) => db2
        | .error _ => db)
      rw [he]
      show TaskInv (db ++
        [{ id := nid, study_id := s, type := ty, title := ti,
           instructions := none, order_index := maxOrderIndex db s + 1,
           created_at := now, updated_at := now }])
      constructor
      · rw [List.map_append, List.nodup_append]
        refine ⟨hInv.1, List.nodup_singleton _, ?_⟩
        intro x hx
        simp only [List.map_cons, List.map_nil, List.mem_singleton]
        intro hx2
        exact hfresh (hx2 ▸ hx)
      · intro s'
        rw [tasksOfStudy_append]
        by_cases hss : s = s'
        · rw [if_pos (by simp [hss])]
          rw [List.map_append, List.nodup_append]
          refine ⟨hInv.2 s', List.nodup_singleton _, ?_⟩
          intro x hx
          simp only [List.map_cons, List.map_nil, List.mem_singleton]
          intro hx2
          rcases List.mem_map.mp hx with ⟨u, hu, rfl⟩
          have hle : u.order_index ≤ maxOrderIndex db s' :=
            mem_le_foldl_max (List.mem_map_of_mem _ hu) 0
          rw [hss] at hx2
          omega
        · rw [if_neg (by simp [hss]), List.append_nil]
          exact hInv.2 s'
  | reorder s ids now =>
    have hperm : ids.Perm ((tasksOfStudy db s).map Task.id) := hLegal
    have hsub : ((tasksOfStudy db s).map Task.id).Sublist (db.map Task.id) :=
      (List.filter_sublist db).map Task.id
    have hsnd : ((tasksOfStudy db s).map Task.id).Nodup := hsub.nodup hInv.1
    have hnd : ids.Nodup := hperm.nodup_iff.mpr hsnd
    show TaskInv (match
        (if s = "" then (.error "Study ID is required" : Except String (List Task × String))
         else if ids = [] then .error "Task IDs list is required"
         else .ok (applyReorder s now (enumFrom 1 ids) db,
                   "Tasks reordered successfully")) with
      | .ok (db2, _) => db2
      | .error _ => db)
    by_cases hs0 : s = ""
    · rw [if_pos hs0]
      exact hInv
    · rw [if_neg hs0]
      by_cases hids0 : ids = []
      · rw [if_pos hids0]
        exact hInv
      · rw [if_neg hids0]
        show TaskInv (applyReorder s now (enumFrom 1 ids) db)
        rw [applyReorder_eq s now ids hnd 1 db]
        set f : Task → Task := fun t =>
          if t.study_id == s && ids.contains t.id then
            { t with order_index := ((1 + ids.indexOf t.id : Nat) : Int),
                     updated_at := now }
          else t with hf
        have hfid : ∀ t : Task, (f t).id = t.id := by
          intro t
          simp only [hf]
          split <;> rfl
        have hfst : ∀ t : Task, (f t).study_id = t.study_id := by
          intro t
          simp only [hf]
          split <;> rfl
        have hstudy : ∀ s' : String, tasksOfStudy (db.map f) s' = (tasksOfStudy db s').map f := by
          intro s'
          unfold tasksOfStudy
          rw [List.filter_map]
          congr 1
          apply List.filter_congr
          intro t _
          simp only [Function.comp_apply, hfst]
        constructor
        · rw [List.map_map]
          have : (Task.id ∘ f) = Task.id := funext hfid
          rw [this]
          exact hInv.1
        · intro s'
          rw [hstudy s']
          by_cases hss : s' = s
          · subst hss
            rw [List.map_map]
            have hmem : ∀ t ∈ tasksOfStudy db s', t.id ∈ ids := by
              intro t ht
              exact hperm.mem_iff.mpr (List.mem_map_of_mem _ ht)
            have hrw : ((tasksOfStudy db s').map (Task.order_index ∘ f))
                = (tasksOfStudy db s').map
                    (fun t => ((1 + ids.indexOf t.id : Nat) : Int)) := by
              apply List.map_congr_left
              intro t ht
              have ht2 : t.study_id = s' := by
                have := List.mem_filter.mp ht
                simpa using this.2
              simp only [Function.comp_apply, hf]
              rw [if_pos (by simp [ht2, List.elem_iff, hmem t ht])]
            rw [hrw]
            apply List.Nodup.map_on
            · intro x hx y hy hxy
              have hx2 : x.id ∈ ids := hmem x hx
              have hy2 : y.id ∈ ids := hmem y hy
              have : ids.indexOf x.id = ids.indexOf y.id := by
                have := Int.natCast_inj.mp hxy
                omega
              have hidxy : x.id = y.id := (List.indexOf_inj hx2 hy2).mp this
              exact List.inj_on_of_nodup_map hsnd hx hy hidxy
            · exact List.Nodup.of_map Task.id hsnd
          · have h0 : ∀ t ∈ tasksOfStudy db s', f t = t := by
              intro t ht
              have ht2 : t.study_id = s' := by
                have := List.mem_filter.mp ht
                simpa using this.2
              simp only [hf]
              rw [if_neg (by simp [ht2, hss])]
            have hrw : (tasksOfStudy db s').map f = tasksOfStudy db s' := by
              rw [List.map_congr_left h0]
              simp
            rw [hrw]
            exact hInv.2 s'

/-- The ordering invariant holds after every well-formed operation sequence. -/
theorem TaskInv_applyOps : ∀ (ops : List TaskOp) (db : List Task),
    TaskInv db → legalSeq db ops → TaskInv (applyOps db ops)
  | [], _, h, _ => h
  | op :: rest, db, h, hl =>
    TaskInv_applyOps rest (applyOp db op) (TaskInv_applyOp h op hl.1) hl.2

/-- `task_le` is transitive (as required for the sort to be sound). -/
theorem task_le_trans : ∀ a b c : Task,
    task_le a b = true → task_le b c = true → task_le a c = true := by
  intro a b c h1 h2
  simp only [task_le, decide_eq_true_eq] at h1 h2 ⊢
  exact le_trans h1 h2

/-- `task_le` is total (as required for the sort to be sound). -/
theorem task_le_total : ∀ a b : Task, (task_le a b || task_le b a) = true := by
  intro a b
  simp only [task_le, Bool.or_eq_true, decide_eq_true_eq]
  exact le_total a.order_index b.order_index

/-- Claim C1 counterexample: starting from a study with no tasks, two
`create_task` calls (without explicit index) produce indices 1 and 2; a
`reorder_tasks` call listing only the second task — which the code accepts —
renumbers it to 1, so `read_tasks` returns two tasks of the study both
carrying `order_index` 1: the listing is not strictly increasing and two tasks
share an index. -/
theorem read_tasks_strict_increase_cex :
    ¬ ((read_tasks
        (applyOps [] [.addTask "s1" "camera" "T1" "t1" 0,
                      .addTask "s1" "discussion" "T2" "t2" 1,
                      .reorder "s1" ["t2"] 2])
        { study_id := some "s1" }).map Task.order_index).Pairwise
      (fun a b => a < b) := by
  intro hp
  have hnd : ((read_tasks
      (applyOps [] [.addTask "s1" "camera" "T1" "t1" 0,
                    .addTask "s1" "discussion" "T2" "t2" 1,
                    .reorder "s1" ["t2"] 2])
      { study_id := some "s1" }).map Task.order_index).Nodup :=
    hp.imp (fun h => ne_of_lt h)
  have hperm : (read_tasks
      (applyOps [] [.addTask "s1" "camera" "T1" "t1" 0,
                    .addTask "s1" "discussion" "T2" "t2" 1,
                    .reorder "s1" ["t2"] 2])
      { study_id := some "s1" }).Perm
        ((applyOps [] [.addTask "s1" "camera" "T1" "t1" 0,
                       .addTask "s1" "discussion" "T2" "t2" 1,
                       .reorder "s1" ["t2"] 2]).filter
          (taskMatches { study_id := some "s1" })) :=
    List.mergeSort_perm _ _
  have h2 : ((applyOps [] [.addTask "s1" "camera" "T1" "t1" 0,
                           .addTask "s1" "discussion" "T2" "t2" 1,
                           .reorder "s1" ["t2"] 2]).filter
        (taskMatches { study_id := some "s1" })).map Task.order_index
      = [1, 1] := by decide
  have h3 := (hperm.map Task.order_index).nodup_iff.mp hnd
  rw [h2] at h3
  simp at h3

/-- Claim C1 amended: for every study S, after any sequence of well-formed
calls — `create_task` without an explicit `order_index` and with a fresh row
id, and `reorder_tasks` supplying exactly a permutation of the target study's
current task ids (the contract both operations are meant to be used under) —
`read_tasks` filtered to S returns tasks whose `order_index` values are
strictly increasing, so in particular no two tasks of S share an index.
Without the permutation restriction the claim fails (see the counterexample):
`reorder_tasks` itself never checks it. -/
theorem read_tasks_strict_increase_of_legal_ops (ops : List TaskOp) (s : String)
    (h : legalSeq [] ops) :
    ((read_tasks (applyOps [] ops) { study_id := some s }).map Task.order_index).Pairwise
      (fun a b => a < b) := by
  have hInv : TaskInv (applyOps [] ops) :=
    TaskInv_applyOps ops []
      ⟨by simp, fun s' => by simp [tasksOfStudy]⟩ h
  have hfil : (applyOps [] ops).filter (taskMatches { study_id := some s })
      = tasksOfStudy (applyOps [] ops) s := by
    unfold tasksOfStudy
    exact List.filter_congr (fun t _ => by simp [taskMatches])
  have hsorted : (read_tasks (applyOps [] ops) { study_id := some s }).Pairwise
      (fun a b => task_le a b = true) :=
    List.sorted_mergeSort task_le_trans task_le_total _
  have hperm : (read_tasks (applyOps [] ops) { study_id := some s }).Perm
      (tasksOfStudy (applyOps [] ops) s) := by
    unfold read_tasks
    rw [hfil]
    exact List.mergeSort_perm _ _
  have hnd : ((read_tasks (applyOps [] ops) { study_id := some s }).map
      Task.order_index).Nodup :=
    (hperm.map Task.order_index).nodup_iff.mpr (hInv.2 s)
  have hnd2 : (read_tasks (applyOps [] ops) { study_id := some s }).Pairwise
      (fun a b => a.order_index ≠ b.order_index) := List.pairwise_map.mp hnd
  rw [List.pairwise_map]
  exact (hsorted.and hnd2).imp
    (fun hab => lt_of_le_of_ne (by simpa [task_le] using hab.1) hab.2)

/-- Witness for `read_tasks_strict_increase_of_legal_ops` at a concrete
sequence: two appends followed by a full-permutation reorder. -/
theorem read_tasks_strict_increase_of_legal_ops_witness :
    legalSeq [] [.addTask "s1" "camera" "T1" "t1" 0,
                 .addTask "s1" "discussion" "T2" "t2" 1,
                 .reorder "s1" ["t2", "t1"] 2]
    ∧ ((read_tasks
          (applyOps [] [.addTask "s1" "camera" "T1" "t1" 0,
                        .addTask "s1" "discussion" "T2" "t2" 1,
                        .reorder "s1" ["t2", "t1"] 2])
          { study_id := some "s1" }).map Task.order_index).Pairwise
        (fun a b => a < b) :=
  ⟨by decide,
   read_tasks_strict_increase_of_legal_ops
     [.addTask "s1" "camera" "T1" "t1" 0,
      .addTask "s1" "discussion" "T2" "t2" 1,
      .reorder "s1" ["t2", "t1"] 2] "s1" (by decide)⟩

end Echo
